import Mathlib

/-!
Shallow embedding of the school-management repository's API route handlers.

Each Next.js route handler is translated into a pure Lean function over an
explicit database state.  SQL tables become lists of row structures, `NOW()`
becomes an explicit `now : Nat` parameter, and JSON response bodies become
structures with optional fields (a field absent from the JSON object is
`none`).  JavaScript falsiness of a missing/empty string field is modelled
as equality with `""`.  bcrypt comparison and email delivery are modelled
as explicit function/Boolean parameters, since they are external effects.
-/

namespace SchoolMgmt

/-- A row of the `users` table (`id, name, email, password, email_verified`). -/
structure UserRow where
  id : Nat
  name : String
  email : String
  password : String
  email_verified : Bool
deriving Repr, DecidableEq

/-- A row of the `otp_codes` table
(`id, email, otp_code, expires_at, used, created_at`); timestamps are
naturals in milliseconds. -/
structure OTPRow where
  id : Nat
  email : String
  otp_code : String
  expires_at : Nat
  used : Bool
  created_at : Nat
deriving Repr, DecidableEq

/-- The authentication-related database state: the `users` and `otp_codes`
tables. -/
structure AppDB where
  users : List UserRow
  otps : List OTPRow
deriving Repr, DecidableEq

/-- JSON body of a verify-otp response: `error`, `message`, `verified`. -/
structure VerifyBody where
  error : Option String := none
  message : Option String := none
  verified : Option Bool := none
deriving Repr, DecidableEq

/-- An HTTP response: status code plus JSON body. -/
structure HttpResp (β : Type) where
  status : Nat
  body : β
deriving Repr, DecidableEq

/-- The regex `/^\d{6}$/` from `verify-otp/route.ts`. -/
def isSixDigits (s : String) : Bool :=
  s.length == 6 && s.toList.all Char.isDigit

/-- The SQL match condition of the verify-otp lookup:
`email = ? AND otp_code = ? AND expires_at > NOW() AND used = FALSE`. -/
def otpMatches (e c : String) (now : Nat) (r : OTPRow) : Bool :=
  r.email == e && r.otp_code == c && decide (now < r.expires_at) && r.used == false

/-- Insertion step for `ORDER BY created_at DESC`. -/
def insertOtpDesc (r : OTPRow) : List OTPRow → List OTPRow
  | [] => [r]
  | x :: xs => if r.created_at > x.created_at then r :: x :: xs else x :: insertOtpDesc r xs

/-- `ORDER BY created_at DESC` as an insertion sort. -/
def sortOtpDesc : List OTPRow → List OTPRow
  | [] => []
  | x :: xs => insertOtpDesc x (sortOtpDesc xs)

/-- The verify-otp `SELECT ... ORDER BY created_at DESC LIMIT 1`. -/
def otpLookup (otps : List OTPRow) (now : Nat) (e c : String) : List OTPRow :=
  (sortOtpDesc (otps.filter (otpMatches e c now))).take 1

/-- The SQL condition of the post-verification cleanup `DELETE`:
`email = ? AND (expires_at < NOW() OR used = TRUE)`.  A row is kept when the
condition is false. -/
def otpKeep (e : String) (now : Nat) (x : OTPRow) : Bool :=
  !(x.email == e && (decide (x.expires_at < now) || x.used))

/-- The three writes of the verify-otp success path: `UPDATE otp_codes SET
used = TRUE WHERE id = ?`, `UPDATE users SET email_verified = TRUE WHERE
email = ?`, and the cleanup `DELETE`. -/
def consumeState (db : AppDB) (now : Nat) (email : String) (r : OTPRow) : AppDB :=
  ⟨db.users.map (fun u => if u.email = email then { u with email_verified := true } else u),
   (db.otps.map (fun x => if x.id = r.id then { x with used := true } else x)).filter
     (otpKeep email now)⟩

/-- The `POST /api/auth/verify-otp` handler from
`src/app/api/auth/verify-otp/route.ts`: input checks, ledger lookup, mark
consumed, mark the user verified, opportunistic cleanup. -/
def verifyOtpHandler (db : AppDB) (now : Nat) (email otp : String) :
    HttpResp VerifyBody × AppDB :=
  if email = "" ∨ otp = "" then
    (⟨400, { error := some "Email and OTP are required" }⟩, db)
  else if isSixDigits otp = false then
    (⟨400, { error := some "OTP must be a 6-digit number" }⟩, db)
  else
    match otpLookup db.otps now email otp with
    | [] => (⟨400, { error := some "Invalid or expired OTP code" }⟩, db)
    | r :: _ =>
      (⟨200, { message := some "Email verified successfully", verified := some true }⟩,
       consumeState db now email r)

theorem otpMatches_iff (e c : String) (now : Nat) (r : OTPRow) :
    otpMatches e c now r = true ↔
      r.email = e ∧ r.otp_code = c ∧ now < r.expires_at ∧ r.used = false := by
  simp [otpMatches, Bool.and_eq_true, decide_eq_true_iff, and_assoc]

theorem mem_insertOtpDesc {a r : OTPRow} {l : List OTPRow} :
    a ∈ insertOtpDesc r l ↔ a = r ∨ a ∈ l := by
  induction l with
  | nil => simp [insertOtpDesc]
  | cons x xs ih =>
    simp only [insertOtpDesc]
    split
    · simp
    · simp [ih]
      tauto

theorem mem_sortOtpDesc {a : OTPRow} {l : List OTPRow} :
    a ∈ sortOtpDesc l ↔ a ∈ l := by
  induction l with
  | nil => simp [sortOtpDesc]
  | cons x xs ih => simp [sortOtpDesc, mem_insertOtpDesc, ih]

theorem insertOtpDesc_ne_nil (r : OTPRow) (l : List OTPRow) :
    insertOtpDesc r l ≠ [] := by
  cases l with
  | nil => simp [insertOtpDesc]
  | cons x xs =>
    simp only [insertOtpDesc]
    split <;> simp

theorem sortOtpDesc_eq_nil_iff {l : List OTPRow} :
    sortOtpDesc l = [] ↔ l = [] := by
  cases l with
  | nil => simp [sortOtpDesc]
  | cons x xs =>
    simp only [sortOtpDesc]
    constructor
    · intro h
      exact absurd h (insertOtpDesc_ne_nil x (sortOtpDesc xs))
    · intro h
      exact absurd h (by simp)

theorem otpLookup_eq_nil_iff {otps : List OTPRow} {now : Nat} {e c : String} :
    otpLookup otps now e c = [] ↔ ∀ r ∈ otps, otpMatches e c now r = false := by
  unfold otpLookup
  constructor
  · intro h r hr
    by_contra hm
    have hm' : otpMatches e c now r = true := by
      cases hx : otpMatches e c now r
      · exact absurd hx hm
      · rfl
    have hmem : r ∈ otps.filter (otpMatches e c now) := List.mem_filter.mpr ⟨hr, hm'⟩
    have hne : otps.filter (otpMatches e c now) ≠ [] := by
      intro hnil
      rw [hnil] at hmem
      exact absurd hmem (List.not_mem_nil r)
    have hsne : sortOtpDesc (otps.filter (otpMatches e c now)) ≠ [] := by
      intro hnil
      exact hne (sortOtpDesc_eq_nil_iff.mp hnil)
    obtain ⟨y, ys, hy⟩ := List.exists_cons_of_ne_nil hsne
    rw [hy] at h
    simp at h
  · intro h
    have hfil : otps.filter (otpMatches e c now) = [] := by
      apply List.filter_eq_nil_iff.mpr
      intro a ha
      simp [h a ha]
    rw [hfil]
    simp [sortOtpDesc]

theorem otpLookup_mem {otps : List OTPRow} {now : Nat} {e c : String} {r : OTPRow}
    {rs : List OTPRow} (h : otpLookup otps now e c = r :: rs) :
    r ∈ otps ∧ otpMatches e c now r = true := by
  have hr : r ∈ otpLookup otps now e c := by rw [h]; simp
  have hr2 : r ∈ sortOtpDesc (otps.filter (otpMatches e c now)) :=
    List.take_subset 1 _ hr
  have hr3 : r ∈ otps.filter (otpMatches e c now) := mem_sortOtpDesc.mp hr2
  exact ⟨(List.mem_filter.mp hr3).1, (List.mem_filter.mp hr3).2⟩

theorem isSixDigits_ne_empty {s : String} (h : isSixDigits s = true) : s ≠ "" := by
  intro hempty
  rw [hempty] at h
  simp [isSixDigits] at h

theorem verifyOtpHandler_of_lookup_nil {db : AppDB} {now : Nat} {e c : String}
    (he : e ≠ "") (hc : isSixDigits c = true)
    (hl : otpLookup db.otps now e c = []) :
    verifyOtpHandler db now e c =
      (⟨400, { error := some "Invalid or expired OTP code" }⟩, db) := by
  have hc' : c ≠ "" := isSixDigits_ne_empty hc
  unfold verifyOtpHandler
  rw [if_neg (by simp [he, hc']), if_neg (by simp [hc]), hl]

theorem verifyOtpHandler_of_lookup_cons {db : AppDB} {now : Nat} {e c : String}
    {r : OTPRow} {rs : List OTPRow}
    (he : e ≠ "") (hc : isSixDigits c = true)
    (hl : otpLookup db.otps now e c = r :: rs) :
    verifyOtpHandler db now e c =
      (⟨200, { message := some "Email verified successfully", verified := some true }⟩,
       consumeState db now e r) := by
  have hc' : c ≠ "" := isSixDigits_ne_empty hc
  unfold verifyOtpHandler
  rw [if_neg (by simp [he, hc']), if_neg (by simp [hc]), hl]

/-- C1 counterexample: the claim quantifies over every submitted pair whose
otp is a 6-digit string, but a submitted pair with an empty email fails with
the message `Email and OTP are required`, not `Invalid or expired OTP code`,
even though the ledger has no matching row. -/
theorem verify_otp_empty_email_cex :
    isSixDigits "123456" = true ∧
    (verifyOtpHandler ⟨[], []⟩ 0 "" "123456").1.status ≠ 200 ∧
    (verifyOtpHandler ⟨[], []⟩ 0 "" "123456").1.body ≠
      { error := some "Invalid or expired OTP code" } ∧
    (verifyOtpHandler ⟨[], []⟩ 0 "" "123456").1.body.error =
      some "Email and OTP are required" := by
  refine ⟨by decide, ?_, ?_, ?_⟩ <;> simp [verifyOtpHandler]

/-- C1 (amended with nonempty email): for every submitted pair with a
nonempty email and a 6-digit otp string, the verify-otp operation succeeds
(status 200) iff the ledger has a row whose email and code match, whose
expiry is in the future and whose consumed flag is false; otherwise it fails
with status 400 and message `Invalid or expired OTP code`. -/
theorem verify_otp_accept_iff (db : AppDB) (now : Nat) (e c : String)
    (he : e ≠ "") (hc : isSixDigits c = true) :
    ((verifyOtpHandler db now e c).1.status = 200 ↔
      ∃ r ∈ db.otps, r.email = e ∧ r.otp_code = c ∧ now < r.expires_at ∧ r.used = false) ∧
    ((¬ ∃ r ∈ db.otps,
        r.email = e ∧ r.otp_code = c ∧ now < r.expires_at ∧ r.used = false) →
      (verifyOtpHandler db now e c).1 =
        ⟨400, { error := some "Invalid or expired OTP code" }⟩) := by
  cases hl : otpLookup db.otps now e c with
  | nil =>
    have hresp := verifyOtpHandler_of_lookup_nil he hc hl
    have hnone := otpLookup_eq_nil_iff.mp hl
    constructor
    · rw [hresp]
      simp only [HttpResp.mk.injEq]
      constructor
      · intro h
        exact absurd h (by norm_num)
      · rintro ⟨r, hr, hprops⟩
        have := hnone r hr
        rw [← otpMatches_iff e c now r] at hprops
        rw [this] at hprops
        exact absurd hprops (by simp)
    · intro _
      rw [hresp]
  | cons r rs =>
    have hresp := verifyOtpHandler_of_lookup_cons he hc hl
    obtain ⟨hmem, hmatch⟩ := otpLookup_mem hl
    constructor
    · rw [hresp]
      simp only [true_iff]
      exact ⟨r, hmem, (otpMatches_iff e c now r).mp hmatch⟩
    · intro hno
      exact absurd ⟨r, hmem, (otpMatches_iff e c now r).mp hmatch⟩ hno

/-- C1 witness: a concrete ledger where the amended theorem applies; the
matching row exists so verification succeeds. -/
theorem verify_otp_accept_iff_witness :
    ((verifyOtpHandler ⟨[], [⟨1, "a@b.co", "123456", 1000, false, 0⟩]⟩ 5 "a@b.co"
        "123456").1.status = 200 ↔
      ∃ r ∈ (AppDB.mk [] [⟨1, "a@b.co", "123456", 1000, false, 0⟩]).otps,
        r.email = "a@b.co" ∧ r.otp_code = "123456" ∧ 5 < r.expires_at ∧
          r.used = false) ∧
    ((¬ ∃ r ∈ (AppDB.mk [] [⟨1, "a@b.co", "123456", 1000, false, 0⟩]).otps,
        r.email = "a@b.co" ∧ r.otp_code = "123456" ∧ 5 < r.expires_at ∧
          r.used = false) →
      (verifyOtpHandler ⟨[], [⟨1, "a@b.co", "123456", 1000, false, 0⟩]⟩ 5 "a@b.co"
        "123456").1 = ⟨400, { error := some "Invalid or expired OTP code" }⟩) :=
  verify_otp_accept_iff ⟨[], [⟨1, "a@b.co", "123456", 1000, false, 0⟩]⟩ 5 "a@b.co"
    "123456" (by decide) (by decide)

theorem otpKeep_iff (e : String) (now : Nat) (x : OTPRow) :
    otpKeep e now x = true ↔
      ¬(x.email = e ∧ (x.expires_at < now ∨ x.used = true)) := by
  simp only [otpKeep, Bool.not_eq_true', Bool.and_eq_false_iff, Bool.or_eq_false_iff,
    beq_eq_false_iff_ne, ne_eq, decide_eq_false_iff_not, Nat.not_lt, Bool.not_eq_true]
  constructor
  · intro h
    rcases h with h | ⟨h1, h2⟩
    · intro hx
      exact absurd hx.1 h
    · intro hx
      rcases hx.2 with h3 | h4
      · exact absurd h3 (Nat.not_lt.mpr h1)
      · rw [h4] at h2
        exact absurd h2 (by simp)
  · intro h
    by_cases hx : x.email = e
    · right
      constructor
      · by_contra hlt
        exact h ⟨hx, Or.inl (Nat.lt_of_not_le hlt)⟩
      · by_contra hu
        have : x.used = true := by
          cases hup : x.used
          · exact absurd hup hu
          · rfl
        exact h ⟨hx, Or.inr this⟩
    · left
      exact hx

/-- A ledger with two identical valid rows for the same email and code
(possible because send-otp only deletes expired/consumed rows and the random
generator may repeat a code). -/
def dbDup : AppDB :=
  ⟨[], [⟨1, "a@b.co", "123456", 1000, false, 0⟩, ⟨2, "a@b.co", "123456", 1000, false, 1⟩]⟩

/-- C2 counterexample: with two identical valid rows in the ledger, the same
verify-otp call succeeds twice — consumption marks (and the cleanup deletes)
only the newest matching row, leaving the duplicate valid. -/
theorem verify_otp_replay_cex :
    (verifyOtpHandler dbDup 0 "a@b.co" "123456").1.status = 200 ∧
    (verifyOtpHandler (verifyOtpHandler dbDup 0 "a@b.co" "123456").2 0 "a@b.co"
      "123456").1.status = 200 := by
  constructor <;> rfl

/-- C2 (amended with a uniqueness proviso): when the ledger holds exactly one
valid matching row for the submitted email and code, verification succeeds,
every user row with that email ends up verified, and replaying the identical
call at any later time fails with `Invalid or expired OTP code` and leaves
the state unchanged (so all further replays fail too). -/
theorem verify_otp_replay_once (db : AppDB) (now now2 : Nat) (e c : String) (r : OTPRow)
    (he : e ≠ "") (hc : isSixDigits c = true) (ht : now ≤ now2)
    (hu : db.otps.filter (otpMatches e c now) = [r]) :
    (verifyOtpHandler db now e c).1.status = 200 ∧
    (∀ u ∈ (verifyOtpHandler db now e c).2.users, u.email = e → u.email_verified = true) ∧
    verifyOtpHandler (verifyOtpHandler db now e c).2 now2 e c =
      (⟨400, { error := some "Invalid or expired OTP code" }⟩,
       (verifyOtpHandler db now e c).2) := by
  have hlook : otpLookup db.otps now e c = [r] := by
    unfold otpLookup
    rw [hu]
    simp [sortOtpDesc, insertOtpDesc]
  have hresp := verifyOtpHandler_of_lookup_cons he hc hlook
  refine ⟨by rw [hresp], ?_, ?_⟩
  · rw [hresp]
    intro u hu' he'
    simp only [consumeState, List.mem_map] at hu'
    obtain ⟨u0, hu0, hmap⟩ := hu'
    by_cases h0 : u0.email = e
    · rw [if_pos h0] at hmap
      rw [← hmap]
    · rw [if_neg h0] at hmap
      rw [← hmap] at he'
      exact absurd he' h0
  · rw [hresp]
    have hl2 : otpLookup (consumeState db now e r).otps now2 e c = [] := by
      apply otpLookup_eq_nil_iff.mpr
      intro y hy
      by_contra hm
      have hm' : otpMatches e c now2 y = true := by
        cases hx : otpMatches e c now2 y
        · exact absurd hx hm
        · rfl
      obtain ⟨hye, hyc, hyt, hyu⟩ := (otpMatches_iff e c now2 y).mp hm'
      simp only [consumeState] at hy
      obtain ⟨hy1, hy2⟩ := List.mem_filter.mp hy
      obtain ⟨x, hx0, hfx⟩ := List.mem_map.mp hy1
      by_cases hid : x.id = r.id
      · rw [if_pos hid] at hfx
        rw [← hfx] at hyu
        simp at hyu
      · rw [if_neg hid] at hfx
        have hxmatch : otpMatches e c now x = true := by
          apply (otpMatches_iff e c now x).mpr
          rw [hfx]
          exact ⟨hye, hyc, lt_of_le_of_lt ht hyt, hyu⟩
        have hxr : x ∈ [r] := by
          rw [← hu]
          exact List.mem_filter.mpr ⟨hx0, hxmatch⟩
        have : x = r := by simpa using hxr
        exact hid (by rw [this])
    exact verifyOtpHandler_of_lookup_nil he hc hl2

/-- A store with one unverified user and exactly one valid OTP row, for the
C2 witness. -/
def dbReplayW : AppDB :=
  ⟨[⟨1, "A", "a@b.co", "hash", false⟩], [⟨1, "a@b.co", "123456", 1000, false, 0⟩]⟩

/-- C2 witness: the amended replay theorem applied at a concrete store. -/
theorem verify_otp_replay_once_witness :
    (verifyOtpHandler dbReplayW 0 "a@b.co" "123456").1.status = 200 ∧
    (∀ u ∈ (verifyOtpHandler dbReplayW 0 "a@b.co" "123456").2.users,
      u.email = "a@b.co" → u.email_verified = true) ∧
    verifyOtpHandler (verifyOtpHandler dbReplayW 0 "a@b.co" "123456").2 5 "a@b.co"
        "123456" =
      (⟨400, { error := some "Invalid or expired OTP code" }⟩,
       (verifyOtpHandler dbReplayW 0 "a@b.co" "123456").2) :=
  verify_otp_replay_once dbReplayW 0 5 "a@b.co" "123456"
    ⟨1, "a@b.co", "123456", 1000, false, 0⟩ (by decide) (by decide) (by decide)
    (by decide)

/-- JSON body of a login response: `error`, `requiresVerification`, `email`,
and on success the public profile `{id, name, email}`. -/
structure LoginBody where
  error : Option String := none
  requiresVerification : Option Bool := none
  email : Option String := none
  user : Option (Nat × String × String) := none
deriving Repr, DecidableEq

/-- The `POST /api/auth/login` handler (source file `src/unnamed/part_003`):
field checks, lookup by email, unverified check, bcrypt comparison, success.
`cmp submitted stored` stands for `bcrypt.compare(password, user.password)`. -/
def login (cmp : String → String → Bool) (users : List UserRow)
    (email password : String) : HttpResp LoginBody :=
  if email = "" ∨ password = "" then
    ⟨400, { error := some "Email and password are required" }⟩
  else
    match (users.filter (fun u => u.email == email)).head? with
    | none => ⟨401, { error := some "Invalid email or password" }⟩
    | some u =>
      if u.email_verified = false then
        ⟨403, { error := some "Email not verified", requiresVerification := some true,
                email := some u.email }⟩
      else if cmp password u.password = false then
        ⟨401, { error := some "Invalid email or password" }⟩
      else
        ⟨200, { user := some (u.id, u.name, u.email) }⟩

/-- C4: a login against an unverified account with the correct password
fails with the 403 `VerificationRequiredError` response carrying the
account's email and `requiresVerification`, and in particular never with the
401 `InvalidCredentialsError` response. -/
theorem login_unverified_correct_password (cmp : String → String → Bool)
    (users : List UserRow) (e p : String) (u : UserRow)
    (he : e ≠ "") (hp : p ≠ "")
    (hu : (users.filter (fun x => x.email == e)).head? = some u)
    (hv : u.email_verified = false) (hcp : cmp p u.password = true) :
    login cmp users e p =
      ⟨403, { error := some "Email not verified", requiresVerification := some true,
              email := some u.email }⟩ ∧
    (login cmp users e p).status ≠ 401 := by
  have hresp : login cmp users e p =
      ⟨403, { error := some "Email not verified", requiresVerification := some true,
              email := some u.email }⟩ := by
    unfold login
    rw [if_neg (by simp [he, hp]), hu]
    simp [hv]
  exact ⟨hresp, by rw [hresp]; norm_num⟩

/-- C4 witness: the unverified-account theorem at a concrete store. -/
theorem login_unverified_correct_password_witness :
    login (fun a b => a == b) [⟨1, "A", "a@b.co", "pw", false⟩] "a@b.co" "pw" =
      ⟨403, { error := some "Email not verified", requiresVerification := some true,
              email := some "a@b.co" }⟩ ∧
    (login (fun a b => a == b) [⟨1, "A", "a@b.co", "pw", false⟩] "a@b.co" "pw").status ≠
      401 :=
  login_unverified_correct_password (fun a b => a == b)
    [⟨1, "A", "a@b.co", "pw", false⟩] "a@b.co" "pw" ⟨1, "A", "a@b.co", "pw", false⟩
    (by decide) (by decide) (by decide) (by decide) (by decide)

/-- A user store holding a single unverified account, for the C5
counterexample. -/
def usersC5 : List UserRow := [⟨1, "A", "a@b.co", "storedhash", false⟩]

/-- C5 counterexample: a wrong-password login against an unverified stored
account answers 403 (revealing the account), while a login for an email with
no stored user answers 401 — the shapes differ, falsifying the claim as
stated over all accounts. -/
theorem login_wrong_password_shape_cex :
    (fun a b => a == b : String → String → Bool) "wrong" "storedhash" = false ∧
    (login (fun a b => a == b) usersC5 "a@b.co" "wrong").status = 403 ∧
    (login (fun a b => a == b) usersC5 "ghost@b.co" "wrong").status = 401 := by
  refine ⟨by decide, by rfl, by rfl⟩

/-- C5 (amended to verified accounts): a wrong-password login against a
verified stored account yields exactly the same response, status and body,
as a login whose email matches no stored user: 401 with the generic message. -/
theorem login_nonenumeration_verified (cmp : String → String → Bool)
    (users : List UserRow) (e1 p1 e2 p2 : String) (u : UserRow)
    (he1 : e1 ≠ "") (hp1 : p1 ≠ "") (he2 : e2 ≠ "") (hp2 : p2 ≠ "")
    (hu : (users.filter (fun x => x.email == e1)).head? = some u)
    (hv : u.email_verified = true) (hcp : cmp p1 u.password = false)
    (hn : (users.filter (fun x => x.email == e2)).head? = none) :
    login cmp users e1 p1 = login cmp users e2 p2 ∧
    login cmp users e1 p1 = ⟨401, { error := some "Invalid email or password" }⟩ := by
  have h1 : login cmp users e1 p1 = ⟨401, { error := some "Invalid email or password" }⟩ := by
    unfold login
    rw [if_neg (by simp [he1, hp1]), hu]
    simp [hv, hcp]
  have h2 : login cmp users e2 p2 = ⟨401, { error := some "Invalid email or password" }⟩ := by
    unfold login
    rw [if_neg (by simp [he2, hp2]), hn]
  exact ⟨by rw [h1, h2], h1⟩

/-- C5 witness: the non-enumeration theorem at a concrete store with a
verified account. -/
theorem login_nonenumeration_verified_witness :
    login (fun a b => a == b) [⟨1, "A", "a@b.co", "hash", true⟩] "a@b.co" "wrong" =
      login (fun a b => a == b) [⟨1, "A", "a@b.co", "hash", true⟩] "ghost@b.co" "pw" ∧
    login (fun a b => a == b) [⟨1, "A", "a@b.co", "hash", true⟩] "a@b.co" "wrong" =
      ⟨401, { error := some "Invalid email or password" }⟩ :=
  login_nonenumeration_verified (fun a b => a == b) [⟨1, "A", "a@b.co", "hash", true⟩]
    "a@b.co" "wrong" "ghost@b.co" "pw" ⟨1, "A", "a@b.co", "hash", true⟩
    (by decide) (by decide) (by decide) (by decide) (by decide) (by decide) (by decide)
    (by decide)

/-- A row of the `schools` table; `created_by` is nullable (legacy rows). -/
structure SchoolRow where
  id : Nat
  name : String
  address : String
  city : String
  state : String
  contact : String
  email_id : String
  image : String
  created_by : Option Nat
deriving Repr, DecidableEq

/-- The JSON payload of a school create/update request. -/
structure SchoolPayload where
  name : String
  address : String
  city : String
  state : String
  contact : String
  image : String
  email_id : String
deriving Repr, DecidableEq

/-- JSON body of a school mutation response. -/
structure MutBody where
  error : Option String := none
  message : Option String := none
deriving Repr, DecidableEq

/-- JSON body of the schools list response: rows, distinct city list, and the
pagination block. -/
structure SchoolsListBody where
  schools : List SchoolRow
  cities : List String
  page : Nat
  limit : Nat
  total : Nat
  hasMore : Bool
deriving Repr, DecidableEq

/-- Lexicographic comparison on character lists (executable stand-in for the
database's string collation). -/
def charListLe : List Char → List Char → Bool
  | [], _ => true
  | _ :: _, [] => false
  | a :: as, b :: bs =>
    if a.toNat < b.toNat then true
    else if b.toNat < a.toNat then false
    else charListLe as bs

/-- Lexicographic string comparison used by the `ORDER BY` sorts. -/
def strLe (a b : String) : Bool :=
  charListLe a.toList b.toList

/-- Insertion step for `ORDER BY name ASC`. -/
def insertSchoolAsc (s : SchoolRow) : List SchoolRow → List SchoolRow
  | [] => [s]
  | x :: xs => if strLe s.name x.name then s :: x :: xs else x :: insertSchoolAsc s xs

/-- `ORDER BY name ASC` as an insertion sort. -/
def sortSchoolsByName : List SchoolRow → List SchoolRow
  | [] => []
  | x :: xs => insertSchoolAsc x (sortSchoolsByName xs)

/-- Insertion step for `ORDER BY city ASC`. -/
def insertStringAsc (s : String) : List String → List String
  | [] => [s]
  | x :: xs => if strLe s x then s :: x :: xs else x :: insertStringAsc s xs

/-- Ascending sort on strings, for `SELECT DISTINCT city ... ORDER BY city`. -/
def sortStrings : List String → List String
  | [] => []
  | x :: xs => insertStringAsc x (sortStrings xs)

/-- Whether the first character list is an initial segment of the second. -/
def charsStartWith : List Char → List Char → Bool
  | [], _ => true
  | _ :: _, [] => false
  | a :: as, b :: bs => a == b && charsStartWith as bs

/-- Whether the first character list occurs contiguously in the second. -/
def charsOccurIn (needle : List Char) : List Char → Bool
  | [] => charsStartWith needle []
  | b :: bs => charsStartWith needle (b :: bs) || charsOccurIn needle bs

/-- Substring containment, for stating what a search filter would have to
check on name/address. -/
def containsSub (needle hay : String) : Bool :=
  charsOccurIn needle.toList hay.toList

/-- The `GET /api/schools` list branch from `src/app/api/schools/route.ts`:
`LIMIT ? OFFSET ?` over the name-sorted table, a separately counted total,
`hasMore := offset + returned < total`, and the distinct city list.  The
`search` and `city` query parameters are accepted by the route's URL but the
handler never reads them. -/
def getSchoolsList (db : List SchoolRow) (page limit : Nat)
    (search city : Option String) : HttpResp SchoolsListBody :=
  ⟨200,
   { schools := ((sortSchoolsByName db).drop ((page - 1) * limit)).take limit,
     cities := sortStrings ((db.map (fun s => s.city)).eraseDups),
     page := page,
     limit := limit,
     total := db.length,
     hasMore := decide ((page - 1) * limit +
       (((sortSchoolsByName db).drop ((page - 1) * limit)).take limit).length <
         db.length) }⟩

/-- The ownership lookup `SELECT created_by FROM schools WHERE id = ?`
followed by taking the first row. -/
def findSchool (db : List SchoolRow) (sid : Nat) : Option SchoolRow :=
  (db.filter (fun s => s.id == sid)).head?

/-- The `PUT /api/schools?id=` handler: auth check, existence check,
ownership check, then the field update (the payload is only read after the
ownership check). -/
def putSchool (db : List SchoolRow) (auth : Option Nat) (sid : Nat)
    (payload : SchoolPayload) : HttpResp MutBody × List SchoolRow :=
  match auth with
  | none => (⟨401, { error := some "Authentication required" }⟩, db)
  | some uid =>
    match findSchool db sid with
    | none => (⟨404, { error := some "School not found" }⟩, db)
    | some s =>
      if s.created_by ≠ some uid then
        (⟨403, { error := some "You can only edit schools that you created" }⟩, db)
      else
        (⟨200, { message := some "School updated successfully" }⟩,
         db.map (fun r =>
           if r.id = sid then
             { r with
               name := payload.name.trim, address := payload.address.trim,
               city := payload.city.trim, state := payload.state.trim,
               contact := payload.contact.trim, image := payload.image.trim,
               email_id := payload.email_id.trim }
           else r))

/-- The `DELETE /api/schools?id=` handler: auth check, existence check,
ownership check, then the row deletion. -/
def deleteSchool (db : List SchoolRow) (auth : Option Nat) (sid : Nat) :
    HttpResp MutBody × List SchoolRow :=
  match auth with
  | none => (⟨401, { error := some "Authentication required" }⟩, db)
  | some uid =>
    match findSchool db sid with
    | none => (⟨404, { error := some "School not found" }⟩, db)
    | some s =>
      if s.created_by ≠ some uid then
        (⟨403, { error := some "You can only delete schools that you created" }⟩, db)
      else
        (⟨200, { message := some "School deleted successfully" }⟩,
         db.filter (fun r => !(r.id == sid)))

/-- A school in Boston whose name and address do not contain `Zeta`. -/
def schoolBoston : SchoolRow :=
  ⟨1, "Alpha", "1 Main St", "Boston", "MA", "1234567890", "x@y.co", "img", some 1⟩

/-- A school in Austin. -/
def schoolAustin : SchoolRow :=
  ⟨2, "Beta", "2 Oak Ave", "Austin", "TX", "1234567890", "x@y.co", "img", some 1⟩

/-- A two-row schools table used by the C3 counterexample. -/
def dbC3 : List SchoolRow := [schoolBoston, schoolAustin]

/-- C3 counterexample: a list request with `search=Zeta` and `city=Austin`
still returns the Boston school, whose city is not Austin and whose name and
address do not contain the search substring — the handler ignores both query
parameters. -/
theorem schools_list_filter_cex :
    schoolBoston ∈
      (getSchoolsList dbC3 1 10 (some "Zeta") (some "Austin")).body.schools ∧
    schoolBoston.city ≠ "Austin" ∧
    containsSub "Zeta" schoolBoston.name = false ∧
    containsSub "Zeta" schoolBoston.address = false := by
  decide

/-- C3 (amended): the list operation ignores the `search` and `city` query
parameters entirely — its response equals the unfiltered listing, which
returns the requested page of all schools together with the distinct sorted
city list, with no authentication involved. -/
theorem schools_list_ignores_query (db : List SchoolRow) (page limit : Nat)
    (search city : Option String) :
    getSchoolsList db page limit search city = getSchoolsList db page limit none none ∧
    (getSchoolsList db page limit search city).body.schools =
      ((sortSchoolsByName db).drop ((page - 1) * limit)).take limit ∧
    (getSchoolsList db page limit search city).body.cities =
      sortStrings ((db.map (fun s => s.city)).eraseDups) ∧
    (getSchoolsList db page limit search city).status = 200 :=
  ⟨rfl, rfl, rfl, rfl⟩

/-- C7: for page N ≥ 1 and limit L the list returns at most L records, and
`hasMore` is false exactly when `(N-1)*L` plus the number of returned records
is at least the total row count taken at query time. -/
theorem schools_pagination_hasMore (db : List SchoolRow) (page limit : Nat)
    (search city : Option String) (hp : 1 ≤ page) :
    (getSchoolsList db page limit search city).body.schools.length ≤ limit ∧
    ((getSchoolsList db page limit search city).body.hasMore = false ↔
      (getSchoolsList db page limit search city).body.total ≤
        (page - 1) * limit +
          (getSchoolsList db page limit search city).body.schools.length) := by
  constructor
  · simp only [getSchoolsList, List.length_take]
    exact min_le_left _ _
  · simp only [getSchoolsList, decide_eq_false_iff_not, Nat.not_lt]

/-- C7 witness: the pagination theorem at a concrete table and page. -/
theorem schools_pagination_hasMore_witness :
    (getSchoolsList dbC3 1 10 none none).body.schools.length ≤ 10 ∧
    ((getSchoolsList dbC3 1 10 none none).body.hasMore = false ↔
      (getSchoolsList dbC3 1 10 none none).body.total ≤
        (1 - 1) * 10 + (getSchoolsList dbC3 1 10 none none).body.schools.length) :=
  schools_pagination_hasMore dbC3 1 10 none none (by decide)

/-- C6: an authenticated update or delete on an existing school owned by a
different user fails with the 403 forbidden response, for every payload, and
leaves the table unchanged; when no row has the requested id, both fail with
the 404 not-found response and leave the table unchanged. -/
theorem schools_mutation_ownership (db : List SchoolRow) (uid sid : Nat)
    (payload : SchoolPayload) :
    (findSchool db sid = none →
      putSchool db (some uid) sid payload =
          (⟨404, { error := some "School not found" }⟩, db) ∧
        deleteSchool db (some uid) sid =
          (⟨404, { error := some "School not found" }⟩, db)) ∧
    (∀ s : SchoolRow, findSchool db sid = some s → s.created_by ≠ some uid →
      putSchool db (some uid) sid payload =
          (⟨403, { error := some "You can only edit schools that you created" }⟩, db) ∧
        deleteSchool db (some uid) sid =
          (⟨403, { error := some "You can only delete schools that you created" }⟩,
           db)) := by
  constructor
  · intro hnone
    constructor
    · unfold putSchool
      rw [hnone]
    · unfold deleteSchool
      rw [hnone]
  · intro s hs hown
    constructor
    · unfold putSchool
      rw [hs]
      simp [hown]
    · unfold deleteSchool
      rw [hs]
      simp [hown]

/-- C6 witness: a non-owner (user 5) against the Boston school (owned by
user 1), and a missing id, at a concrete table. -/
theorem schools_mutation_ownership_witness :
    putSchool dbC3 (some 5) 1 ⟨"n", "a", "c", "s", "1234567890", "i", "e@f.co"⟩ =
        (⟨403, { error := some "You can only edit schools that you created" }⟩, dbC3) ∧
    deleteSchool dbC3 (some 5) 1 =
      (⟨403, { error := some "You can only delete schools that you created" }⟩, dbC3) :=
  (schools_mutation_ownership dbC3 5 1
      ⟨"n", "a", "c", "s", "1234567890", "i", "e@f.co"⟩).2 schoolBoston (by decide)
    (by decide)

/-- C9: a school row whose stored owner is null can never be mutated or
deleted — every authenticated update or delete against it answers the 403
forbidden response and leaves the table unchanged, whatever the caller's
user id and payload. -/
theorem schools_null_owner_immutable (db : List SchoolRow) (uid sid : Nat)
    (payload : SchoolPayload) (s : SchoolRow)
    (hs : findSchool db sid = some s) (hnull : s.created_by = none) :
    putSchool db (some uid) sid payload =
        (⟨403, { error := some "You can only edit schools that you created" }⟩, db) ∧
    deleteSchool db (some uid) sid =
      (⟨403, { error := some "You can only delete schools that you created" }⟩, db) := by
  have hown : s.created_by ≠ some uid := by
    rw [hnull]
    simp
  constructor
  · unfold putSchool
    rw [hs]
    simp [hown]
  · unfold deleteSchool
    rw [hs]
    simp [hown]

/-- A single legacy school row with no owner, for the C9 witness. -/
def schoolLegacy : SchoolRow :=
  ⟨7, "Gamma", "3 Pine Rd", "Denver", "CO", "1234567890", "g@h.co", "img", none⟩

/-- C9 witness: the null-owner theorem at a concrete legacy row. -/
theorem schools_null_owner_immutable_witness :
    putSchool [schoolLegacy] (some 42) 7 ⟨"n", "a", "c", "s", "1234567890", "i", "e@f.co"⟩ =
        (⟨403, { error := some "You can only edit schools that you created" }⟩,
         [schoolLegacy]) ∧
    deleteSchool [schoolLegacy] (some 42) 7 =
      (⟨403, { error := some "You can only delete schools that you created" }⟩,
       [schoolLegacy]) :=
  schools_null_owner_immutable [schoolLegacy] 42 7
    ⟨"n", "a", "c", "s", "1234567890", "i", "e@f.co"⟩ schoolLegacy (by decide)
    (by decide)

/-- Split a character list at every occurrence of a separator. -/
def splitAtChar (sep : Char) : List Char → List (List Char)
  | [] => [[]]
  | c :: cs =>
    if c == sep then [] :: splitAtChar sep cs
    else
      match splitAtChar sep cs with
      | [] => [[c]]
      | r :: rs => (c :: r) :: rs

/-- The email regex `/^[^\s@]+@[^\s@]+\.[^\s@]+$/` shared by the register,
send-otp and school handlers: exactly one `@`, nonempty halves, no
whitespace, and a dot in the interior of the domain part. -/
def emailRegexTest (s : String) : Bool :=
  match splitAtChar '@' s.toList with
  | [l, d] =>
    !l.isEmpty && !d.isEmpty &&
    l.all (fun ch => !ch.isWhitespace) &&
    d.all (fun ch => !ch.isWhitespace) &&
    ((d.drop 1).dropLast.contains '.')
  | _ => false

/-- The special characters admitted by the password regex. -/
def pwSpecials : List Char := ['@', '$', '!', '%', '*', '?', '&']

/-- Characters admitted by the password regex body `[A-Za-z\d@$!%*?&]`. -/
def allowedPwChar (ch : Char) : Bool :=
  ch.isAlpha || ch.isDigit || pwSpecials.contains ch

/-- The password regex from `register/route.ts`:
`/^(?=.*[a-z])(?=.*[A-Z])(?=.*\d)(?=.*[@$!%*?&])[A-Za-z\d@$!%*?&]{6,}$/`. -/
def passwordPolicy (s : String) : Bool :=
  decide (6 ≤ s.toList.length) && s.toList.all allowedPwChar &&
    s.toList.any Char.isLower && s.toList.any Char.isUpper &&
    s.toList.any Char.isDigit && s.toList.any (fun ch => pwSpecials.contains ch)

/-- JSON body of a register response. -/
structure RegisterBody where
  error : Option String := none
  message : Option String := none
  requiresVerification : Option Bool := none
  email : Option String := none
  expiresIn : Option Nat := none
deriving Repr, DecidableEq

/-- JSON body of a send-otp response. -/
structure SendBody where
  error : Option String := none
  message : Option String := none
  email : Option String := none
  expiresIn : Option Nat := none
deriving Repr, DecidableEq

/-- The `POST /api/auth/register` handler from
`src/app/api/auth/register/route.ts`.  `hash` stands for `bcrypt.hash`,
`newUserId`/`otpId` for the database-assigned row ids, `otpCode` for the
random `generateOTP()` draw, and `emailSent` for the outcome of
`sendOTPEmail`. -/
def register (db : AppDB) (now : Nat) (name email password : String)
    (hash : String → String) (newUserId otpId : Nat) (otpCode : String)
    (emailSent : Bool) : HttpResp RegisterBody × AppDB :=
  if name = "" ∨ email = "" ∨ password = "" then
    (⟨400, { error := some "All fields are required" }⟩, db)
  else if passwordPolicy password = false then
    (⟨400, { error := some "Password must be at least 6 characters long and contain at least one uppercase letter, one lowercase letter, one number, and one special character (@$!%*?&)" }⟩, db)
  else if emailRegexTest email = false then
    (⟨400, { error := some "Please enter a valid email address" }⟩, db)
  else if (db.users.filter (fun u => u.email == email)).length > 0 then
    (⟨409, { error := some "User with this email already exists" }⟩, db)
  else
    let users1 := db.users ++ [⟨newUserId, name, email, hash password, false⟩]
    let otps1 := db.otps ++ [⟨otpId, email, otpCode, now + 600000, false, now⟩]
    if emailSent then
      (⟨201, { message := some "Registration successful. Please check your email for verification code.",
               requiresVerification := some true, email := some email,
               expiresIn := some 600 }⟩, ⟨users1, otps1⟩)
    else
      (⟨201, { message := some "Registration successful, but verification email failed to send. Please request a new OTP.",
               requiresVerification := some true, email := some email }⟩,
       ⟨users1, otps1⟩)

/-- The `POST /api/auth/send-otp` handler (second part of
`verify-otp/route.ts` in the source tree): email checks, cleanup delete,
insert of a fresh 10-minute code, then delivery. -/
def sendOtp (db : AppDB) (now : Nat) (email code : String) (otpId : Nat)
    (emailSent : Bool) : HttpResp SendBody × AppDB :=
  if email = "" then
    (⟨400, { error := some "Email is required" }⟩, db)
  else if emailRegexTest email = false then
    (⟨400, { error := some "Please enter a valid email address" }⟩, db)
  else
    let otps2 := db.otps.filter (otpKeep email now) ++
      [⟨otpId, email, code, now + 600000, false, now⟩]
    if emailSent then
      (⟨200, { message := some "OTP sent successfully", email := some email,
               expiresIn := some 600 }⟩, ⟨db.users, otps2⟩)
    else
      (⟨500, { error := some "Failed to send verification email. Please try again." }⟩,
       ⟨db.users, otps2⟩)

theorem emailRegexTest_ne_empty {s : String} (h : emailRegexTest s = true) : s ≠ "" := by
  intro hempty
  rw [hempty] at h
  exact absurd h (by decide)

theorem passwordPolicy_ne_empty {s : String} (h : passwordPolicy s = true) : s ≠ "" := by
  intro hempty
  rw [hempty] at h
  exact absurd h (by decide)

/-- C8 counterexample: for the same valid registration input, the
email-sent and email-failed outcomes both answer 201, but the response
bodies differ in more than the message text: the sent outcome carries
`expiresIn := 600` and the failed outcome omits it. -/
theorem register_email_outcome_cex :
    (register ⟨[], []⟩ 0 "A" "a@b.co" "Abcde1!" (fun s => s) 1 1 "123456" true).1.status =
      201 ∧
    (register ⟨[], []⟩ 0 "A" "a@b.co" "Abcde1!" (fun s => s) 1 1 "123456" false).1.status =
      201 ∧
    { (register ⟨[], []⟩ 0 "A" "a@b.co" "Abcde1!" (fun s => s) 1 1 "123456"
        true).1.body with message := none } ≠
      { (register ⟨[], []⟩ 0 "A" "a@b.co" "Abcde1!" (fun s => s) 1 1 "123456"
          false).1.body with message := none } := by
  refine ⟨rfl, rfl, by decide⟩

/-- C8 (amended): once validation passes and the user and OTP rows are
created, registration answers 201 with `requiresVerification := true` and no
error whatever the delivery outcome, the stored state is identical in both
outcomes, and the two responses differ in the message text and in the
presence of `expiresIn` (600 only when the send succeeded). -/
theorem register_reports_success_regardless (db : AppDB) (now : Nat)
    (name email password : String) (hash : String → String) (nuid oid : Nat)
    (code : String) (sent : Bool)
    (hn : name ≠ "") (hpw : passwordPolicy password = true)
    (hem : emailRegexTest email = true)
    (hfree : db.users.filter (fun u => u.email == email) = []) :
    (register db now name email password hash nuid oid code sent).1.status = 201 ∧
    (register db now name email password hash nuid oid code
        sent).1.body.requiresVerification = some true ∧
    (register db now name email password hash nuid oid code sent).1.body.email =
      some email ∧
    (register db now name email password hash nuid oid code sent).1.body.error = none ∧
    (register db now name email password hash nuid oid code sent).1.body.expiresIn =
      (if sent then some 600 else none) ∧
    (register db now name email password hash nuid oid code true).2 =
      (register db now name email password hash nuid oid code false).2 := by
  have hem' : email ≠ "" := emailRegexTest_ne_empty hem
  have hpw' : password ≠ "" := passwordPolicy_ne_empty hpw
  have hcond : ¬(name = "" ∨ email = "" ∨ password = "") := by simp [hn, hem', hpw']
  have hlen : ¬((db.users.filter (fun u => u.email == email)).length > 0) := by
    rw [hfree]
    simp
  have hT : register db now name email password hash nuid oid code true =
      (⟨201, { message := some "Registration successful. Please check your email for verification code.",
               requiresVerification := some true, email := some email,
               expiresIn := some 600 }⟩,
       ⟨db.users ++ [⟨nuid, name, email, hash password, false⟩],
        db.otps ++ [⟨oid, email, code, now + 600000, false, now⟩]⟩) := by
    unfold register
    rw [if_neg hcond, if_neg (by simp [hpw]), if_neg (by simp [hem]), if_neg hlen]
    rfl
  have hF : register db now name email password hash nuid oid code false =
      (⟨201, { message := some "Registration successful, but verification email failed to send. Please request a new OTP.",
               requiresVerification := some true, email := some email }⟩,
       ⟨db.users ++ [⟨nuid, name, email, hash password, false⟩],
        db.otps ++ [⟨oid, email, code, now + 600000, false, now⟩]⟩) := by
    unfold register
    rw [if_neg hcond, if_neg (by simp [hpw]), if_neg (by simp [hem]), if_neg hlen]
    rfl
  cases sent
  · rw [hT, hF]
    simp
  · rw [hT, hF]
    simp

/-- C8 witness: the amended registration theorem at a concrete valid input
with the send succeeding. -/
theorem register_reports_success_regardless_witness :
    (register ⟨[], []⟩ 0 "A" "a@b.co" "Abcde1!" (fun s => s) 1 1 "123456"
        true).1.status = 201 ∧
    (register ⟨[], []⟩ 0 "A" "a@b.co" "Abcde1!" (fun s => s) 1 1 "123456"
        true).1.body.requiresVerification = some true ∧
    (register ⟨[], []⟩ 0 "A" "a@b.co" "Abcde1!" (fun s => s) 1 1 "123456"
        true).1.body.email = some "a@b.co" ∧
    (register ⟨[], []⟩ 0 "A" "a@b.co" "Abcde1!" (fun s => s) 1 1 "123456"
        true).1.body.error = none ∧
    (register ⟨[], []⟩ 0 "A" "a@b.co" "Abcde1!" (fun s => s) 1 1 "123456"
        true).1.body.expiresIn = (if true then some 600 else none) ∧
    (register ⟨[], []⟩ 0 "A" "a@b.co" "Abcde1!" (fun s => s) 1 1 "123456" true).2 =
      (register ⟨[], []⟩ 0 "A" "a@b.co" "Abcde1!" (fun s => s) 1 1 "123456" false).2 :=
  register_reports_success_regardless ⟨[], []⟩ 0 "A" "a@b.co" "Abcde1!" (fun s => s)
    1 1 "123456" true (by decide) (by decide) (by decide) (by decide)

/-- C10: for a well-formed email with no registered user, send-otp still
answers 200 and records a code, and verifying that code before its expiry
succeeds with `verified := true` while the user table is left untouched (the
verified-flag update matches zero rows). -/
theorem send_otp_verify_without_user (db : AppDB) (now now2 : Nat)
    (email code : String) (oid : Nat)
    (hem : emailRegexTest email = true)
    (hnouser : db.users.filter (fun u => u.email == email) = [])
    (hc : isSixDigits code = true)
    (ht : now2 < now + 600000) :
    (sendOtp db now email code oid true).1.status = 200 ∧
    (verifyOtpHandler (sendOtp db now email code oid true).2 now2 email code).1 =
      ⟨200, { message := some "Email verified successfully", verified := some true }⟩ ∧
    (verifyOtpHandler (sendOtp db now email code oid true).2 now2 email code).2.users =
      db.users := by
  have hem' : email ≠ "" := emailRegexTest_ne_empty hem
  have hsend : sendOtp db now email code oid true =
      (⟨200, { message := some "OTP sent successfully", email := some email,
               expiresIn := some 600 }⟩,
       ⟨db.users, db.otps.filter (otpKeep email now) ++
         [⟨oid, email, code, now + 600000, false, now⟩]⟩) := by
    unfold sendOtp
    rw [if_neg hem', if_neg (by simp [hem])]
    rfl
  have hmatchnew : otpMatches email code now2
      (⟨oid, email, code, now + 600000, false, now⟩ : OTPRow) = true :=
    (otpMatches_iff email code now2 ⟨oid, email, code, now + 600000, false, now⟩).mpr
      ⟨rfl, rfl, ht, rfl⟩
  have hmem : (⟨oid, email, code, now + 600000, false, now⟩ : OTPRow) ∈
      (db.otps.filter (otpKeep email now) ++
        [(⟨oid, email, code, now + 600000, false, now⟩ : OTPRow)]).filter
        (otpMatches email code now2) := by
    rw [List.mem_filter]
    refine ⟨?_, hmatchnew⟩
    simp
  have hfne := List.ne_nil_of_mem hmem
  have hsne : sortOtpDesc ((db.otps.filter (otpKeep email now) ++
      [(⟨oid, email, code, now + 600000, false, now⟩ : OTPRow)]).filter
      (otpMatches email code now2)) ≠ [] := by
    intro hnil
    exact hfne (sortOtpDesc_eq_nil_iff.mp hnil)
  obtain ⟨r, rs, hsr⟩ := List.exists_cons_of_ne_nil hsne
  have hlook : otpLookup (db.otps.filter (otpKeep email now) ++
      [(⟨oid, email, code, now + 600000, false, now⟩ : OTPRow)]) now2 email code = [r] := by
    unfold otpLookup
    rw [hsr]
    rfl
  have hverify := @verifyOtpHandler_of_lookup_cons
    ⟨db.users, db.otps.filter (otpKeep email now) ++
      [(⟨oid, email, code, now + 600000, false, now⟩ : OTPRow)]⟩
    now2 email code r [] hem' hc hlook
  refine ⟨by rw [hsend], ?_, ?_⟩
  · rw [hsend, hverify]
  · rw [hsend, hverify]
    simp only [consumeState]
    have husers : ∀ u ∈ db.users,
        (if u.email = email then { u with email_verified := true } else u) = u := by
      intro u hu
      have hpred := List.filter_eq_nil_iff.mp hnouser u hu
      have hne : u.email ≠ email := by
        intro hx
        rw [hx] at hpred
        simp at hpred
      rw [if_neg hne]
    calc (AppDB.mk db.users (db.otps.filter (otpKeep email now) ++
          [⟨oid, email, code, now + 600000, false, now⟩])).users.map
          (fun u => if u.email = email then { u with email_verified := true } else u)
        = db.users.map id := List.map_congr_left (fun u hu => husers u hu)
      _ = db.users := List.map_id db.users

/-- C10 witness: send-otp then verify against an empty user table. -/
theorem send_otp_verify_without_user_witness :
    (sendOtp ⟨[], []⟩ 0 "a@b.co" "123456" 1 true).1.status = 200 ∧
    (verifyOtpHandler (sendOtp ⟨[], []⟩ 0 "a@b.co" "123456" 1 true).2 5 "a@b.co"
        "123456").1 =
      ⟨200, { message := some "Email verified successfully", verified := some true }⟩ ∧
    (verifyOtpHandler (sendOtp ⟨[], []⟩ 0 "a@b.co" "123456" 1 true).2 5 "a@b.co"
        "123456").2.users = ([] : List UserRow) :=
  send_otp_verify_without_user ⟨[], []⟩ 0 5 "a@b.co" "123456" 1 (by decide) (by decide)
    (by decide) (by decide)

end SchoolMgmt
